import Mathlib

/-!
Verification of the Kalp relayer SDK core against its specification.

The definitions below are a shallow embedding of the TypeScript sources:
  sdk/KalpRelaySDK.ts      (relay core: chain configuration, signing, submission)
  sdk/walletSigners.ts     (signing adapters and the prepareValue transform)
  sdk/errors.ts            (typed error hierarchy)
  sdk/tokenTransfer.ts     (deadline computation, facilitator call encoding)
  utils.ts                 (address validation, retry, timeout, retry classifier)

JavaScript machine integers appear as Int or Nat; 64-bit words in the keccak
model carry an explicit mask by 2 to the 64.  JavaScript exceptions appear as
Except; a thrown value of undefined appears as the error value none at type
Option SdkError.  Promise timing only matters where a promise races a timer,
so each asynchronous outcome carries an explicit resolve time in milliseconds.
-/

namespace KalpSdk

/-! ## Error taxonomy, from sdk/errors.ts

Each KalpRelayError subclass fixes its message and code in its constructor;
the embedding keeps only the data that varies per instance.  genericError
models a plain Error value built with new Error(message). -/

inductive SdkError where
  | genericError (message : String)
  | walletNotConnected
  | signatureError (details : String)
  | relaySubmissionError (message : String)
  | chainNotSupportedError (chainId : Int)
  | requestTimeoutError (details : String)
deriving DecidableEq

/-- The value of the message property of each error object, as set by the
constructors in sdk/errors.ts. -/
def errorMessage : SdkError → String
  | .genericError m => m
  | .walletNotConnected => "Wallet not connected"
  | .signatureError _ => "Failed to sign transaction"
  | .relaySubmissionError m => m
  | .chainNotSupportedError c =>
      "Chain ID " ++ toString c ++ " is not supported. Please configure this chain first."
  | .requestTimeoutError _ => "Request timed out"

/-- The value of the code property of each error object (undefined for a plain
Error), as set by the constructors in sdk/errors.ts. -/
def errorCodeString : SdkError → Option String
  | .genericError _ => none
  | .walletNotConnected => some "WALLET_NOT_CONNECTED"
  | .signatureError _ => some "SIGNATURE_ERROR"
  | .relaySubmissionError _ => some "RELAY_SUBMISSION_ERROR"
  | .chainNotSupportedError _ => some "CHAIN_NOT_SUPPORTED"
  | .requestTimeoutError _ => some "REQUEST_TIMEOUT"

/-! ## Validation utilities, from utils.ts -/

/-- One character of the class [a-fA-F0-9] in the address regex. -/
def isHexDigit (c : Char) : Bool :=
  (decide ('0' ≤ c) && decide (c ≤ '9')) ||
  (decide ('a' ≤ c) && decide (c ≤ 'f')) ||
  (decide ('A' ≤ c) && decide (c ≤ 'F'))

/-- The anchored regex 0x[a-fA-F0-9]+, with exactly forty digits, as a scan
over a character list. -/
def validAddressChars : List Char → Bool
  | c0 :: c1 :: rest => c0 == '0' && c1 == 'x' && rest.length == 40 && rest.all isHexDigit
  | _ => false

/-- utils.ts isValidAddress: the anchored regex test applied to the character
content of the string. -/
def isValidAddress (address : String) : Bool :=
  validAddressChars address.data

/-- utils.ts isValidChainId: Number.isInteger(chainId) && chainId > 0.  The
integrality test is absorbed by the Int type of the embedding. -/
def isValidChainId (chainId : Int) : Bool :=
  decide (0 < chainId)

/-! ## Retry classification, from utils.ts shouldRetryError

A caught JavaScript error is observed by that function only through its code
property (a number or a string) and through the optional chain
error.response?.status.  JsError collects exactly those observations.  A
status field that is absent, or a response object that is absent, both appear
as none. -/

inductive JsCode where
  | num (n : Int)
  | str (s : String)
deriving DecidableEq

structure JsError where
  code : Option JsCode
  responseStatus : Option Int
deriving DecidableEq

/-- JavaScript truthiness of the expression error.response?.status: undefined
and the number 0 are falsy. -/
def statusTruthy : Option Int → Bool
  | some n => decide (n ≠ 0)
  | none => false

/-- utils.ts shouldRetryError, clause for clause:  transport codes first, then
the truthy response status gate, then the user-rejection codes, then the
default of true. -/
def shouldRetryError (error : JsError) : Bool :=
  if error.code == some (.str "ECONNRESET") || error.code == some (.str "ETIMEDOUT") then
    true
  else if statusTruthy error.responseStatus then
    decide (500 ≤ error.responseStatus.getD 0) || decide (error.responseStatus.getD 0 = 429)
  else if error.code == some (.num 4001) || error.code == some (.str "ACTION_REJECTED") then
    false
  else
    true

/-- How a thrown SdkError looks to shouldRetryError: its code string, and no
response property (none of the classes in sdk/errors.ts carries one). -/
def toJsError (e : SdkError) : JsError :=
  { code := (errorCodeString e).map .str, responseStatus := none }

/-- The shouldRetry callback that submitRelayRequest hands to retryWithBackoff
in sdk/KalpRelaySDK.ts.  The submit function only ever throws SdkError values,
so the undefined branch is unreachable there; shouldRetryError applied to
undefined would itself throw, which the default of true over-approximates. -/
def shouldRetryThrown : SdkError → Bool :=
  fun e => shouldRetryError (toJsError e)

/-! ## retryWithBackoff, from utils.ts

The loop runs attempt = 1 .. maxAttempts.  On success it returns; on failure
it rethrows when the attempts are exhausted or the classifier declines,
otherwise it sleeps and continues.  Delays only affect timing, which no claim
observes, so the embedding drops them.  The result records how many times the
wrapped function ran together with the final outcome; the error position none
models the trailing throw of the never-assigned lastError variable, reached
exactly when the loop body never runs. -/

def retryGo (fn : Nat → Except ε α) (shouldRetry : ε → Bool) (maxAttempts : Int) :
    Nat → Nat → Nat × Except (Option ε) α
  | 0, made => (made, .error none)
  | fuel + 1, made =>
    let attempt := made + 1
    match fn attempt with
    | .ok a => (made + 1, .ok a)
    | .error e =>
      if (attempt : Int) = maxAttempts || ¬ shouldRetry e then (made + 1, .error (some e))
      else retryGo fn shouldRetry maxAttempts fuel (made + 1)

/-- utils.ts retryWithBackoff, with fn indexed by the attempt number it is
invoked on.  The first component counts invocations of fn. -/
def retryWithBackoff (fn : Nat → Except ε α) (maxAttempts : Int) (shouldRetry : ε → Bool) :
    Nat × Except (Option ε) α :=
  retryGo fn shouldRetry maxAttempts maxAttempts.toNat 0

/-! ## withTimeout, from utils.ts

Promise.race of the wrapped promise against a timer that rejects with
RequestTimeoutError after timeoutMs.  resolveTime is the instant at which the
wrapped promise would settle; the timer wins exactly when the budget elapses
first. -/

def withTimeout (resolveTime : Nat) (outcome : Except SdkError α) (timeoutMs : Nat) :
    Except SdkError α :=
  if timeoutMs < resolveTime then .error (.requestTimeoutError "Operation timed out")
  else outcome

/-! ## Deadline computation, from sdk/tokenTransfer.ts -/

/-- JavaScript truthiness of an optional number: undefined and 0 are falsy. -/
def intTruthy : Option Int → Bool
  | some n => decide (n ≠ 0)
  | none => false

/-- tokenTransfer.ts calculateDeadline: if (customDeadline) return
BigInt(customDeadline); else Math.floor(Date.now() / 1000) + 3600.  nowMs is
the value of Date.now(). -/
def calculateDeadline (customDeadline : Option Int) (nowMs : Nat) : Int :=
  if intTruthy customDeadline then customDeadline.getD 0
  else Int.ofNat (nowMs / 1000 + 3600)

/-! ## Signing adapters, from sdk/walletSigners.ts

A typed-data message is a JavaScript value: bigint, string, number, boolean,
null, or a plain object of named fields.  JsFields keeps the object fields in
insertion order, mirroring the for-in loop of prepareValue. -/

mutual
inductive JsVal where
  | bigint (i : Int)
  | str (s : String)
  | num (n : Int)
  | boolean (b : Bool)
  | nul
  | obj (fields : JsFields)
inductive JsFields where
  | nil
  | cons (key : String) (value : JsVal) (rest : JsFields)
end

/-- JavaScript BigInt.prototype.toString with radix 16: lowercase hex digits,
a leading minus sign for negative values. -/
def bigintToString16 (i : Int) : String :=
  if i < 0 then "-" ++ (Nat.toDigits 16 i.natAbs).asString
  else (Nat.toDigits 16 i.toNat).asString

mutual
/-- walletSigners.ts prepareValue: converts bigint to a 0x-prefixed hex string
and recurses into objects, leaving every other value unchanged. -/
def prepareValue : JsVal → JsVal
  | .bigint i => .str ("0x" ++ bigintToString16 i)
  | .obj fields => .obj (prepareFields fields)
  | .str s => .str s
  | .num n => .num n
  | .boolean b => .boolean b
  | .nul => .nul
def prepareFields : JsFields → JsFields
  | .nil => .nil
  | .cons k v rest => .cons k (prepareValue v) (prepareFields rest)
end

mutual
/-- Whether a value contains a bigint anywhere, including inside nested
objects. -/
def hasBigint : JsVal → Bool
  | .bigint _ => true
  | .obj fields => fieldsHaveBigint fields
  | .str _ => false
  | .num _ => false
  | .boolean _ => false
  | .nul => false
def fieldsHaveBigint : JsFields → Bool
  | .nil => false
  | .cons _ v rest => hasBigint v || fieldsHaveBigint rest
end

/-- The message handed to the underlying eth_signTypedData_v4 request by the
MetaMask adapter (walletSigners.ts createMetaMaskSigner): prepareValue applied
to args.message. -/
def metaMaskSignedMessage (message : JsVal) : JsVal :=
  prepareValue message

/-- The message handed to the underlying eth_signTypedData_v4 request by the
generic EIP-1193 adapter (walletSigners.ts createEip1193Signer): prepareValue
applied to args.message. -/
def eip1193SignedMessage (message : JsVal) : JsVal :=
  prepareValue message

/-- The message handed to signer.signTypedData by the ethers library-signer
adapter (walletSigners.ts createEthersSigner): args.message verbatim, with no
prepareValue step. -/
def ethersSignedMessage (message : JsVal) : JsVal :=
  message

/-! ## Chain configuration state, from sdk/KalpRelaySDK.ts

The chainConfigs and providers members are JavaScript Map objects keyed by the
numeric chain id.  The embedding keeps each as an insertion-ordered
association list with unique keys: set overwrites in place or appends, delete
removes the entry, get scans for the key. -/

def mapGet : List (Int × α) → Int → Option α
  | [], _ => none
  | kv :: rest, k => if kv.1 = k then some kv.2 else mapGet rest k

def mapHas (m : List (Int × α)) (k : Int) : Bool :=
  (mapGet m k).isSome

def mapSet : List (Int × α) → Int → α → List (Int × α)
  | [], k, v => [(k, v)]
  | kv :: rest, k, v => if kv.1 = k then (k, v) :: rest else kv :: mapSet rest k v

def mapDelete : List (Int × α) → Int → List (Int × α)
  | [], _ => []
  | kv :: rest, k => if kv.1 = k then rest else kv :: mapDelete rest k

/-- sdk/types.ts ChainConfig. -/
structure ChainConfig where
  chainId : Int
  relayerAddress : String
  domainName : String
  domainVersion : String
  sponsorAddress : String
  relayApiUrl : Option String
  rpcUrl : Option String
  chainName : Option String
deriving DecidableEq

/-- sdk/types.ts KalpRelayConfig, restricted to the fields the embedded
operations read.  chains lists Object.values(config.chains) in order. -/
structure KalpRelayConfig where
  chainId : Int
  relayerAddress : String
  domainName : String
  domainVersion : String
  sponsorAddress : String
  relayApiUrl : Option String
  apiKey : Option String
  chains : List ChainConfig
deriving DecidableEq

/-- The mutable state of a KalpRelaySDK instance: the active chain id, the
chain configuration map, and the provider map (each provider recorded by the
RPC URL it was constructed from). -/
structure SDKState where
  currentChainId : Int
  chainConfigs : List (Int × ChainConfig)
  providers : List (Int × String)
deriving DecidableEq

/-- KalpRelaySDK.addChainConfig: validate the chain id and both addresses,
then store the configuration and, when an RPC URL is present, a provider for
that chain.  An error leaves the state unchanged because every throw happens
before the first mutation. -/
def addChainConfig (st : SDKState) (cfg : ChainConfig) : Except SdkError SDKState :=
  if ¬ isValidChainId cfg.chainId then
    .error (.genericError ("Invalid chain ID: " ++ toString cfg.chainId))
  else if ¬ isValidAddress cfg.relayerAddress then
    .error (.genericError ("Invalid relayer address for chain " ++ toString cfg.chainId))
  else if ¬ isValidAddress cfg.sponsorAddress then
    .error (.genericError ("Invalid sponsor address for chain " ++ toString cfg.chainId))
  else
    .ok { st with
      chainConfigs := mapSet st.chainConfigs cfg.chainId cfg,
      providers :=
        match cfg.rpcUrl with
        | some url => mapSet st.providers cfg.chainId url
        | none => st.providers }

/-- KalpRelaySDK.removeChainConfig: refuse to drop the active chain, otherwise
delete the entry. -/
def removeChainConfig (st : SDKState) (chainId : Int) : Except SdkError SDKState :=
  if chainId = st.currentChainId then
    .error (.genericError "Cannot remove current chain configuration")
  else
    .ok { st with chainConfigs := mapDelete st.chainConfigs chainId }

/-- KalpRelaySDK.switchChain: fail with ChainNotSupportedError on an
unconfigured id, otherwise make it the active chain. -/
def switchChain (st : SDKState) (chainId : Int) : Except SdkError SDKState :=
  if mapHas st.chainConfigs chainId then
    .ok { st with currentChainId := chainId }
  else
    .error (.chainNotSupportedError chainId)

/-- KalpRelaySDK.getChainConfig for an explicit chain id. -/
def getChainConfig (st : SDKState) (chainId : Int) : Except SdkError ChainConfig :=
  match mapGet st.chainConfigs chainId with
  | some cfg => .ok cfg
  | none => .error (.chainNotSupportedError chainId)

/-- The default chain configuration the constructor registers from the
top-level config fields. -/
def defaultChainConfig (config : KalpRelayConfig) : ChainConfig :=
  { chainId := config.chainId
    relayerAddress := config.relayerAddress
    domainName := config.domainName
    domainVersion := config.domainVersion
    sponsorAddress := config.sponsorAddress
    relayApiUrl := config.relayApiUrl
    rpcUrl := none
    chainName := none }

/-- The forEach loop of the constructor over Object.values(config.chains):
each addChainConfig call may throw, which aborts construction. -/
def addAllChains (st : SDKState) : List ChainConfig → Except SdkError SDKState
  | [] => .ok st
  | cfg :: rest =>
    match addChainConfig st cfg with
    | .ok st2 => addAllChains st2 rest
    | .error e => .error e

/-- The KalpRelaySDK constructor: validate the top-level fields, set the
active chain, register the default chain configuration, then register each
additional chain from config.chains.  Any validation failure aborts
construction. -/
def mkSDK (config : KalpRelayConfig) : Except SdkError SDKState :=
  if ¬ isValidChainId config.chainId then .error (.genericError "Invalid chain ID")
  else if ¬ isValidAddress config.relayerAddress then .error (.genericError "Invalid relayer address")
  else if ¬ isValidAddress config.sponsorAddress then .error (.genericError "Invalid sponsor address")
  else
    match addChainConfig
        { currentChainId := config.chainId, chainConfigs := [], providers := [] }
        (defaultChainConfig config) with
    | .ok st1 => addAllChains st1 config.chains
    | .error e => .error e

/-- One configuration-management call.  A call that throws leaves the SDK
state as it was, since each method validates before mutating. -/
inductive Op where
  | add (cfg : ChainConfig)
  | remove (chainId : Int)
  | switch (chainId : Int)

def applyOp (st : SDKState) : Op → SDKState
  | .add cfg =>
    match addChainConfig st cfg with
    | .ok st2 => st2
    | .error _ => st
  | .remove chainId =>
    match removeChainConfig st chainId with
    | .ok st2 => st2
    | .error _ => st
  | .switch chainId =>
    match switchChain st chainId with
    | .ok st2 => st2
    | .error _ => st

def runOps (st : SDKState) (ops : List Op) : SDKState :=
  ops.foldl applyOp st

/-! ## Relay submission, from sdk/KalpRelaySDK.ts

The HTTP layer is observed through one outcome per attempt: either fetch
itself rejects, or a response arrives with a status, a status text, the text
body read on the error path, and the parsed JSON body read on the success
path. -/

/-- sdk/types.ts RelayTransactionParams. -/
structure RelayTransactionParams where
  target : String
  data : String
  userAddress : String
deriving DecidableEq

/-- The requestPayload object literal built inside submitRelayRequest, field
for field. -/
structure RelayPayload where
  chainId : Int
  contractAddress : String
  userAddress : String
  data : String
  userSignature : String
  sponsor : String
deriving DecidableEq

/-- The JSON.stringify image of the payload: the six keys in object-literal
insertion order, each with the serialized value. -/
def payloadPairs (p : RelayPayload) : List (String × String) :=
  [ ("chainId", toString p.chainId),
    ("contractAddress", p.contractAddress),
    ("userAddress", p.userAddress),
    ("data", p.data),
    ("userSignature", p.userSignature),
    ("sponsor", p.sponsor) ]

/-- The requestPayload construction in submitRelayRequest. -/
def requestPayload (targetChainId : Int) (params : RelayTransactionParams)
    (signature sponsorAddress : String) : RelayPayload :=
  { chainId := targetChainId
    contractAddress := params.target
    userAddress := params.userAddress
    data := params.data
    userSignature := signature
    sponsor := sponsorAddress }

/-- The optional result object nested inside a relay response body. -/
structure RelayNested where
  txHash : Option String
  blockNumber : Option Int
  gasUsed : Option String
deriving DecidableEq

/-- The parsed JSON body of a relay response, restricted to the fields
submitRelayRequest reads.  A missing field is none. -/
structure RelayResponseBody where
  message : Option String
  error : Option String
  result : Option RelayNested
  txHash : Option String
  blockNumber : Option Int
  gasUsed : Option String
deriving DecidableEq

/-- sdk/types.ts RelayResult as normalized by submitRelayRequest; fields the
response did not provide stay none (undefined). -/
structure RelayResult where
  txHash : Option String
  blockNumber : Option Int
  gasUsed : Option String
  message : Option String
deriving DecidableEq

/-- JavaScript truthiness of an optional string: undefined and the empty
string are falsy. -/
def strTruthy : Option String → Bool
  | some s => decide (s ≠ "")
  | none => false

/-- The JavaScript a || b fallback on optional strings. -/
def jsOrStr (a b : Option String) : Option String :=
  if strTruthy a then a else b

/-- The JavaScript a || b fallback on optional numbers. -/
def jsOrInt (a b : Option Int) : Option Int :=
  if intTruthy a then a else b

/-- One observed outcome of the fetch call inside submitRelayRequest. -/
inductive HttpOutcome where
  | fetchError (message : String)
  | response (status : Nat) (statusText : String) (errorText : String) (body : RelayResponseBody)
deriving DecidableEq

/-- The submitFn closure inside submitRelayRequest, for one attempt whose
fetch produced the given outcome.  Every failure inside the closure is caught
and rewrapped as RelaySubmissionError(message, error), so no other error kind
can escape an attempt. -/
def relaySubmitOnce (out : HttpOutcome) : Except SdkError RelayResult :=
  match out with
  | .fetchError m => .error (.relaySubmissionError m)
  | .response status statusText errorText body =>
    if ¬ (200 ≤ status ∧ status < 300) then
      .error (.relaySubmissionError
        ("HTTP " ++ toString status ++ ": " ++ statusText ++ " - " ++ errorText))
    else if body.message ≠ some "success" then
      .error (.relaySubmissionError
        ((jsOrStr body.error (jsOrStr body.message (some "Transaction failed"))).getD
          "Transaction failed"))
    else
      let r := body.result.getD
        { txHash := body.txHash, blockNumber := body.blockNumber, gasUsed := body.gasUsed }
      .ok { txHash := jsOrStr r.txHash body.txHash
            blockNumber := jsOrInt r.blockNumber body.blockNumber
            gasUsed := jsOrStr r.gasUsed body.gasUsed
            message := body.message }

deriving instance DecidableEq for Except

/-- The observable trace of one executeRelay or submitRelayRequest call:
how many submission attempts ran, the payload those attempts posted (none when
no attempt ran), and the settled outcome.  The error value none models a
promise rejected with undefined. -/
structure RelayRun where
  attempts : Nat
  posted : Option RelayPayload
  result : Except (Option SdkError) RelayResult
deriving DecidableEq

/-- The race of the whole retry loop against the operation timeout, as in the
final withTimeout of submitRelayRequest.  submitTime is the instant the retry
loop would settle. -/
def withTimeoutSubmit (submitTime : Nat) (outcome : Except (Option SdkError) RelayResult)
    (timeoutMs : Nat) : Except (Option SdkError) RelayResult :=
  if timeoutMs < submitTime then .error (some (.requestTimeoutError "Operation timed out"))
  else outcome

/-- KalpRelaySDK.submitRelayRequest: resolve the chain, build the payload,
submit with retryWithBackoff gated by shouldRetryError, all under the
operation timeout.  responses gives the HTTP outcome of each attempt. -/
def submitRelayRequest (st : SDKState) (params : RelayTransactionParams)
    (signature sponsorAddress : String) (chainId : Option Int)
    (responses : Nat → HttpOutcome) (maxAttempts : Int)
    (submitTime timeoutMs : Nat) : RelayRun :=
  let targetChainId := chainId.getD st.currentChainId
  match getChainConfig st targetChainId with
  | .error e => { attempts := 0, posted := none, result := .error (some e) }
  | .ok _cfg =>
    let payload := requestPayload targetChainId params signature sponsorAddress
    let run := retryWithBackoff (fun attempt => relaySubmitOnce (responses attempt))
      maxAttempts shouldRetryThrown
    { attempts := run.1
      posted := if run.1 = 0 then none else some payload
      result := withTimeoutSubmit submitTime run.2 timeoutMs }

/-- KalpRelaySDK.signRelayRequest: the wallet-connected and address
validations, the chain lookup, then the signing call raced against the
timeout.  Everything the try block throws, the RequestTimeoutError from
withTimeout included, is rewrapped as SignatureError(error.message).
signOutcome and signTime describe how the signing adapter promise would
settle. -/
def signRelayRequest (st : SDKState) (params : RelayTransactionParams)
    (sponsorAddress : String) (chainId : Option Int)
    (signOutcome : Except SdkError String) (signTime timeoutMs : Nat) :
    Except SdkError String :=
  if params.userAddress = "" then .error .walletNotConnected
  else if ¬ isValidAddress params.target then .error (.genericError "Invalid target contract address")
  else if ¬ isValidAddress params.userAddress then .error (.genericError "Invalid user address")
  else if ¬ isValidAddress sponsorAddress then .error (.genericError "Invalid sponsor address")
  else
    match getChainConfig st (chainId.getD st.currentChainId) with
    | .error e => .error e
    | .ok _cfg =>
      match withTimeout signTime signOutcome timeoutMs with
      | .ok signature => .ok signature
      | .error e => .error (.signatureError (errorMessage e))

/-- KalpRelaySDK.executeRelay: resolve the chain configuration, take the
sponsor address from it, sign, then submit.  A failure before submission
produces a run with zero attempts and nothing posted. -/
def executeRelay (st : SDKState) (params : RelayTransactionParams) (chainId : Option Int)
    (signOutcome : Except SdkError String) (signTime : Nat)
    (responses : Nat → HttpOutcome) (maxAttempts : Int)
    (submitTime timeoutMs : Nat) : RelayRun :=
  let targetChainId := chainId.getD st.currentChainId
  match getChainConfig st targetChainId with
  | .error e => { attempts := 0, posted := none, result := .error (some e) }
  | .ok cfg =>
    match signRelayRequest st params cfg.sponsorAddress (some targetChainId)
        signOutcome signTime timeoutMs with
    | .error e => { attempts := 0, posted := none, result := .error (some e) }
    | .ok signature =>
      submitRelayRequest st params signature cfg.sponsorAddress (some targetChainId)
        responses maxAttempts submitTime timeoutMs

/-! ## Keccak-256 and ABI call encoding

sdk/tokenTransfer.ts encodeFacilitatorCall delegates the byte-level work to
the ethers Interface ABI coder, an external dependency of the repository.  The
coder is embedded concretely here: the four-byte selector is the prefix of the
Keccak-256 digest of the canonical signature, and every argument of the
facilitator call has a static type encoded as one 32-byte word.  Lanes are
Nats reduced modulo 2 to the 64 by explicit masking. -/

def mask64 : Nat := 2 ^ 64 - 1

def rotl64 (x n : Nat) : Nat :=
  ((x <<< n) ||| (x >>> (64 - n))) &&& mask64

/-- The FIPS 202 iota round constant for a given round, written in decimal. -/
def keccakRCAt : Nat → Nat
  | 0 => 1
  | 1 => 32898
  | 2 => 9223372036854808714
  | 3 => 9223372039002292224
  | 4 => 32907
  | 5 => 2147483649
  | 6 => 9223372039002292353
  | 7 => 9223372036854808585
  | 8 => 138
  | 9 => 136
  | 10 => 2147516425
  | 11 => 2147483658
  | 12 => 2147516555
  | 13 => 9223372036854775947
  | 14 => 9223372036854808713
  | 15 => 9223372036854808579
  | 16 => 9223372036854808578
  | 17 => 9223372036854775936
  | 18 => 32778
  | 19 => 9223372039002259466
  | 20 => 9223372039002292353
  | 21 => 9223372036854808704
  | 22 => 2147483649
  | 23 => 9223372039002292232
  | _ => 0

def keccakRC : List Nat :=
  (List.range 24).map keccakRCAt

/-- The rho rotation offset of the lane at coordinates (x, y). -/
def keccakRotXY : Nat → Nat → Nat
  | 0, 0 => 0
  | 1, 0 => 1
  | 2, 0 => 62
  | 3, 0 => 28
  | 4, 0 => 27
  | 0, 1 => 36
  | 1, 1 => 44
  | 2, 1 => 6
  | 3, 1 => 55
  | 4, 1 => 20
  | 0, 2 => 3
  | 1, 2 => 10
  | 2, 2 => 43
  | 3, 2 => 25
  | 4, 2 => 39
  | 0, 3 => 41
  | 1, 3 => 45
  | 2, 3 => 15
  | 3, 3 => 21
  | 4, 3 => 8
  | 0, 4 => 18
  | 1, 4 => 2
  | 2, 4 => 61
  | 3, 4 => 56
  | 4, 4 => 14
  | _, _ => 0

/-- Lane (x, y) of a 25-lane state. -/
def lane (s : List Nat) (x y : Nat) : Nat :=
  s.getD (x + 5 * y) 0

def keccakTheta (s : List Nat) : List Nat :=
  let c := (List.range 5).map fun x =>
    lane s x 0 ^^^ lane s x 1 ^^^ lane s x 2 ^^^ lane s x 3 ^^^ lane s x 4
  let d := (List.range 5).map fun x =>
    c.getD ((x + 4) % 5) 0 ^^^ rotl64 (c.getD ((x + 1) % 5) 0) 1
  (List.range 25).map fun i => s.getD i 0 ^^^ d.getD (i % 5) 0

def keccakRhoPi (s : List Nat) : List Nat :=
  (List.range 25).map fun i =>
    let xp := i % 5
    let yp := i / 5
    let y := xp
    let x := (3 * (yp + 15 - 3 * xp)) % 5
    rotl64 (lane s x y) (keccakRotXY x y)

def keccakChi (b : List Nat) : List Nat :=
  (List.range 25).map fun i =>
    let x := i % 5
    let y := i / 5
    lane b x y ^^^ ((lane b ((x + 1) % 5) y ^^^ mask64) &&& lane b ((x + 2) % 5) y)

def keccakRound (s : List Nat) (rc : Nat) : List Nat :=
  let c := keccakChi (keccakRhoPi (keccakTheta s))
  c.set 0 (c.getD 0 0 ^^^ rc)

def keccakF (s : List Nat) : List Nat :=
  keccakRC.foldl keccakRound s

/-- Original Keccak pad10*1 with the 0x01 domain byte (not the NIST SHA-3
variant), rate 136 bytes. -/
def keccakPad (msg : List Nat) : List Nat :=
  let padLen := 136 - msg.length % 136
  if padLen = 1 then msg ++ [0x81]
  else msg ++ [0x01] ++ List.replicate (padLen - 2) 0 ++ [0x80]

/-- A little-endian 64-bit lane from up to eight bytes. -/
def bytesToLane (bs : List Nat) : Nat :=
  bs.foldr (fun b acc => b + 256 * acc) 0

def absorbBlock (s : List Nat) (block : List Nat) : List Nat :=
  let lanes := (List.range 17).map fun j => bytesToLane ((block.drop (8 * j)).take 8)
  keccakF ((List.range 25).map fun i =>
    s.getD i 0 ^^^ (if i < 17 then lanes.getD i 0 else 0))

/-- Absorb a padded message, one 136-byte block at a time. -/
def absorbAll (s : List Nat) (bs : List Nat) : List Nat :=
  (List.range ((bs.length + 135) / 136)).foldl
    (fun st j => absorbBlock st ((bs.drop (136 * j)).take 136)) s

/-- Keccak-256 of a byte list: absorb the padded input, then squeeze the first
32 bytes of the state little-endian lane by lane. -/
def keccak256 (msg : List Nat) : List Nat :=
  let s := absorbAll (List.replicate 25 0) (keccakPad msg)
  (List.range 32).map fun i => (s.getD (i / 8) 0 >>> (8 * (i % 8))) &&& 255

/-- The ASCII bytes of a signature string. -/
def asciiBytes (s : String) : List Nat :=
  s.data.map Char.toNat

/-- Lowercase hex rendering of a byte list. -/
def bytesToHexStr (bs : List Nat) : String :=
  String.mk (bs.foldr (fun b acc => Nat.digitChar (b / 16) :: Nat.digitChar (b % 16) :: acc) [])

def hexDigitVal (c : Char) : Nat :=
  if '0' ≤ c ∧ c ≤ '9' then c.toNat - 48
  else if 'a' ≤ c ∧ c ≤ 'f' then c.toNat - 87
  else if 'A' ≤ c ∧ c ≤ 'F' then c.toNat - 55
  else 0

def hexToBytes : List Char → List Nat
  | c1 :: c2 :: rest => (16 * hexDigitVal c1 + hexDigitVal c2) :: hexToBytes rest
  | _ => []

/-- Drop a leading 0x prefix from a hex string. -/
def strip0x (s : String) : List Char :=
  match s.data with
  | '0' :: 'x' :: rest => rest
  | l => l

def leftPad32 (bs : List Nat) : List Nat :=
  List.replicate (32 - bs.length) 0 ++ bs

/-- Big-endian 32-byte word of a uint value. -/
def natToBytes32 (n : Nat) : List Nat :=
  (List.range 32).map fun i => (n >>> (8 * (31 - i))) &&& 255

/-- A static ABI argument as the ethers coder receives it from
encodeFacilitatorCall: an address or bytes32 given as a 0x hex string, or an
unsigned integer. -/
inductive AbiValue where
  | addr (s : String)
  | uint (n : Nat)
  | bytes32 (s : String)

/-- The one 32-byte head word of a static ABI argument. -/
def encodeAbiValue : AbiValue → List Nat
  | .addr s => leftPad32 (hexToBytes (strip0x s))
  | .uint n => natToBytes32 n
  | .bytes32 s => hexToBytes (strip0x s)

/-- The four-byte function selector: the prefix of the Keccak-256 digest of
the canonical signature. -/
def selectorBytes (canonicalSig : String) : List Nat :=
  (keccak256 (asciiBytes canonicalSig)).take 4

/-- The ethers Interface.encodeFunctionData coder for a function whose
arguments are all static types: selector followed by one word per argument,
rendered as a 0x hex string. -/
def ethersEncodeFunctionData (canonicalSig : String) (args : List AbiValue) : String :=
  "0x" ++ bytesToHexStr (selectorBytes canonicalSig ++
    args.foldr (fun a acc => encodeAbiValue a ++ acc) [])

/-- The canonical signature ethers derives from the FACILITATOR_ABI entry in
sdk/tokenTransfer.ts. -/
def FACILITATOR_SIGNATURE : String :=
  "facilitateTransferWithPermit(address,address,address,uint256,uint256,uint8,bytes32,bytes32)"

/-- The params argument of encodeFacilitatorCall. -/
structure FacilitatorCallParams where
  tokenAddress : String
  owner : String
  recipient : String
  amount : Nat

/-- The permitSignature argument of encodeFacilitatorCall. -/
structure PermitSignatureParts where
  v : Nat
  r : String
  s : String

/-- tokenTransfer.ts encodeFacilitatorCall: encode a call to
facilitateTransferWithPermit with the argument list exactly as the source
writes it. -/
def encodeFacilitatorCall (params : FacilitatorCallParams)
    (permitSignature : PermitSignatureParts) (deadline : Nat) : String :=
  ethersEncodeFunctionData FACILITATOR_SIGNATURE
    [ .addr params.tokenAddress, .addr params.owner, .addr params.recipient,
      .uint params.amount, .uint deadline, .uint permitSignature.v,
      .bytes32 permitSignature.r, .bytes32 permitSignature.s ]

/-- Modelled from the spec: the call-data for the facilitator entry point
facilitateTransferWithPermit(address token, address owner, address to,
uint256 value, uint256 deadline, uint8 v, bytes32 r, bytes32 s), namely the
selector of that signature followed by the words for token, owner, recipient,
amount, deadline, v, r, s in exactly that order. -/
def specFacilitatorCallData (token owner toAddr : String) (value deadline v : Nat)
    (r s : String) : String :=
  "0x" ++ bytesToHexStr
    ((keccak256 (asciiBytes FACILITATOR_SIGNATURE)).take 4 ++
      (encodeAbiValue (.addr token) ++ (encodeAbiValue (.addr owner) ++
        (encodeAbiValue (.addr toAddr) ++ (encodeAbiValue (.uint value) ++
          (encodeAbiValue (.uint deadline) ++ (encodeAbiValue (.uint v) ++
            (encodeAbiValue (.bytes32 r) ++ encodeAbiValue (.bytes32 s)))))))))

/-! ## Map lemmas -/

theorem mapGet_set_self (m : List (Int × α)) (k : Int) (v : α) :
    mapGet (mapSet m k v) k = some v := by
  induction m with
  | nil => simp [mapSet, mapGet]
  | cons kv rest ih =>
    by_cases h : kv.1 = k
    · simp [mapSet, h, mapGet]
    · simp [mapSet, h, mapGet, ih]

theorem mapGet_set_ne (m : List (Int × α)) (k j : Int) (v : α) (h : j ≠ k) :
    mapGet (mapSet m k v) j = mapGet m j := by
  have hkj : ¬ k = j := fun hk => h hk.symm
  induction m with
  | nil => simp [mapSet, mapGet, hkj]
  | cons kv rest ih =>
    by_cases hk : kv.1 = k
    · have hj : ¬ kv.1 = j := by rw [hk]; exact hkj
      simp [mapSet, hk, mapGet, hkj, hj]
    · by_cases hj : kv.1 = j
      · simp [mapSet, hk, mapGet, hj, h]
      · simp [mapSet, hk, mapGet, hj, ih]

theorem mapGet_delete_ne (m : List (Int × α)) (k j : Int) (h : j ≠ k) :
    mapGet (mapDelete m k) j = mapGet m j := by
  have hkj : ¬ k = j := fun hk => h hk.symm
  induction m with
  | nil => simp [mapDelete]
  | cons kv rest ih =>
    by_cases hk : kv.1 = k
    · have hj : ¬ kv.1 = j := by rw [hk]; exact hkj
      simp [mapDelete, hk, mapGet, hj, hkj]
    · by_cases hj : kv.1 = j
      · simp [mapDelete, hk, mapGet, hj, h]
      · simp [mapDelete, hk, mapGet, hj, ih]

theorem mapHas_set_self (m : List (Int × α)) (k : Int) (v : α) :
    mapHas (mapSet m k v) k = true := by
  simp [mapHas, mapGet_set_self]

/-! ## The active-chain invariant -/

/-- The §3 RelayCoreState invariant: the active chain id always has a
configuration entry. -/
def Inv (st : SDKState) : Prop :=
  mapHas st.chainConfigs st.currentChainId = true

theorem addChainConfig_ok (st st2 : SDKState) (cfg : ChainConfig)
    (h : addChainConfig st cfg = .ok st2) :
    st2.currentChainId = st.currentChainId ∧
    st2.chainConfigs = mapSet st.chainConfigs cfg.chainId cfg := by
  unfold addChainConfig at h
  split at h
  · simp at h
  split at h
  · simp at h
  split at h
  · simp at h
  simp only [Except.ok.injEq] at h
  subst h
  exact ⟨rfl, rfl⟩

theorem addChainConfig_ok_inv (st st2 : SDKState) (cfg : ChainConfig)
    (h : addChainConfig st cfg = .ok st2) (hinv : Inv st) : Inv st2 := by
  obtain ⟨hcur, hmap⟩ := addChainConfig_ok st st2 cfg h
  unfold Inv at hinv ⊢
  rw [hcur, hmap]
  by_cases hc : st.currentChainId = cfg.chainId
  · rw [hc]; exact mapHas_set_self _ _ _
  · simpa [mapHas, mapGet_set_ne _ _ _ _ hc] using hinv

theorem inv_applyOp (st : SDKState) (op : Op) (hinv : Inv st) : Inv (applyOp st op) := by
  cases op with
  | add cfg =>
    cases h : addChainConfig st cfg with
    | ok st2 =>
      simp only [applyOp, h]
      exact addChainConfig_ok_inv st st2 cfg h hinv
    | error e =>
      simp only [applyOp, h]
      exact hinv
  | remove chainId =>
    by_cases h : chainId = st.currentChainId
    · simp only [applyOp, removeChainConfig, if_pos h]
      exact hinv
    · have hne : st.currentChainId ≠ chainId := fun hx => h hx.symm
      simp only [applyOp, removeChainConfig, if_neg h]
      simpa [Inv, mapHas, mapGet_delete_ne _ _ _ hne] using hinv
  | switch chainId =>
    by_cases h : mapHas st.chainConfigs chainId = true
    · simp only [applyOp, switchChain, if_pos h]
      exact h
    · simp only [applyOp, switchChain, if_neg h]
      exact hinv

theorem inv_runOps (st : SDKState) (ops : List Op) (hinv : Inv st) : Inv (runOps st ops) := by
  induction ops generalizing st with
  | nil => exact hinv
  | cons op rest ih =>
    have hstep : runOps st (op :: rest) = runOps (applyOp st op) rest := rfl
    rw [hstep]
    exact ih _ (inv_applyOp st op hinv)

theorem inv_addAllChains (l : List ChainConfig) (st st2 : SDKState) (hinv : Inv st)
    (h : addAllChains st l = .ok st2) : Inv st2 := by
  induction l generalizing st with
  | nil =>
    simp only [addAllChains, Except.ok.injEq] at h
    subst h
    exact hinv
  | cons cfg rest ih =>
    cases haux : addChainConfig st cfg with
    | error e => simp [addAllChains, haux] at h
    | ok st1 =>
      simp only [addAllChains, haux] at h
      exact ih st1 (addChainConfig_ok_inv st st1 cfg haux hinv) h

theorem mkSDK_inv (config : KalpRelayConfig) (st : SDKState)
    (h : mkSDK config = .ok st) : Inv st := by
  unfold mkSDK at h
  split at h
  · simp at h
  split at h
  · simp at h
  split at h
  · simp at h
  cases haux : addChainConfig
      { currentChainId := config.chainId, chainConfigs := [], providers := [] }
      (defaultChainConfig config) with
  | error e => rw [haux] at h; simp at h
  | ok st1 =>
    rw [haux] at h
    have hinv1 : Inv st1 := by
      obtain ⟨hcur, hmap⟩ := addChainConfig_ok _ st1 _ haux
      unfold Inv
      rw [hcur, hmap]
      exact mapHas_set_self _ _ _
    exact inv_addAllChains config.chains st1 st hinv1 h

/-- Claim C4: in every state reachable by the constructor followed by any
sequence of addChainConfig, removeChainConfig and switchChain calls, the
active chain id has an entry in the chain-configuration map; switchChain on an
unconfigured id throws ChainNotSupportedError and leaves the state unchanged,
and removeChainConfig of the active chain id throws and leaves the state
unchanged. -/
theorem claim_C4 (config : KalpRelayConfig) (st : SDKState) (ops : List Op)
    (h : mkSDK config = .ok st) :
    mapHas (runOps st ops).chainConfigs (runOps st ops).currentChainId = true
    ∧ (∀ c : Int, mapHas (runOps st ops).chainConfigs c = false →
        switchChain (runOps st ops) c = .error (.chainNotSupportedError c)
        ∧ applyOp (runOps st ops) (.switch c) = runOps st ops)
    ∧ removeChainConfig (runOps st ops) (runOps st ops).currentChainId
        = .error (.genericError "Cannot remove current chain configuration")
    ∧ applyOp (runOps st ops) (.remove (runOps st ops).currentChainId) = runOps st ops := by
  have hinv := inv_runOps st ops (mkSDK_inv config st h)
  refine ⟨hinv, ?_, ?_, ?_⟩
  · intro c hc
    exact ⟨by simp [switchChain, hc], by simp [applyOp, switchChain, hc]⟩
  · simp [removeChainConfig]
  · simp [applyOp, removeChainConfig]

/-! ## Concrete fixtures for witnesses and counterexamples -/

def addrRelayer : String := "0x1111111111111111111111111111111111111111"

def addrSponsor : String := "0x2222222222222222222222222222222222222222"

def addrUser : String := "0x3333333333333333333333333333333333333333"

def addrTarget : String := "0x4444444444444444444444444444444444444444"

def cfgW : KalpRelayConfig :=
  { chainId := 1
    relayerAddress := addrRelayer
    domainName := "KalpRelay"
    domainVersion := "1"
    sponsorAddress := addrSponsor
    relayApiUrl := none
    apiKey := none
    chains := [] }

def stW : SDKState :=
  { currentChainId := 1
    chainConfigs := [(1, defaultChainConfig cfgW)]
    providers := [] }

theorem mkSDK_cfgW : mkSDK cfgW = .ok stW := by decide

def cfg2W : ChainConfig :=
  { chainId := 2
    relayerAddress := addrRelayer
    domainName := "KalpRelay"
    domainVersion := "1"
    sponsorAddress := addrSponsor
    relayApiUrl := none
    rpcUrl := none
    chainName := none }

def opsW : List Op := [.add cfg2W, .switch 2]

/-- Witness for claim C4 at a concrete configuration and operation
sequence. -/
theorem claim_C4_witness :
    mkSDK cfgW = .ok stW
    ∧ mapHas (runOps stW opsW).chainConfigs (runOps stW opsW).currentChainId = true
    ∧ removeChainConfig (runOps stW opsW) (runOps stW opsW).currentChainId
        = .error (.genericError "Cannot remove current chain configuration") :=
  ⟨mkSDK_cfgW, (claim_C4 cfgW stW opsW mkSDK_cfgW).1,
    (claim_C4 cfgW stW opsW mkSDK_cfgW).2.2.1⟩

/-! ## Claim C10: retryWithBackoff with a non-positive attempt budget -/

/-- Claim C10: when retryWithBackoff is called with maxAttempts zero or
negative, the supplied function is never invoked (zero attempts) and the
returned promise rejects with the undefined error value (none), not a typed
error. -/
theorem claim_C10 (fn : Nat → Except SdkError RelayResult)
    (shouldRetry : SdkError → Bool) (maxAttempts : Int) (h : maxAttempts ≤ 0) :
    retryWithBackoff fn maxAttempts shouldRetry = (0, .error none) := by
  unfold retryWithBackoff
  have hz : maxAttempts.toNat = 0 := Int.toNat_of_nonpos h
  rw [hz]
  rfl

def okResultW : RelayResult :=
  { txHash := some "0xabc", blockNumber := none, gasUsed := none, message := some "success" }

/-- Witness for claim C10: a function that would succeed immediately is still
never run when the budget is zero. -/
theorem claim_C10_witness :
    (0 : Int) ≤ 0
    ∧ retryWithBackoff (fun _ => Except.ok okResultW) 0 shouldRetryThrown
        = (0, .error none) :=
  ⟨le_refl 0, claim_C10 (fun _ => Except.ok okResultW) shouldRetryThrown 0 (le_refl 0)⟩

/-! ## Claim C5: calculateDeadline -/

/-- Counterexample to claim C5 as stated: a provided custom deadline of 0 is
not returned; the truthiness test sends it to the default branch. -/
theorem claim_C5_counterexample :
    calculateDeadline (some 0) 1700000000000 = 1700003600
    ∧ calculateDeadline (some 0) 1700000000000 ≠ 0 := by
  constructor
  · rfl
  · decide

/-- Claim C5 as amended: calculateDeadline returns the custom deadline
whenever one is provided and nonzero; when the custom deadline is absent, or
provided as 0 (which the JavaScript truthiness test treats like absent), it
returns the current Unix time in seconds plus 3600. -/
theorem claim_C5_amended (c : Int) (nowMs : Nat) (hc : c ≠ 0) :
    calculateDeadline (some c) nowMs = c
    ∧ calculateDeadline none nowMs = Int.ofNat (nowMs / 1000 + 3600)
    ∧ calculateDeadline (some 0) nowMs = Int.ofNat (nowMs / 1000 + 3600) := by
  refine ⟨?_, rfl, rfl⟩
  simp [calculateDeadline, intTruthy, hc]

/-- Witness for the amended claim C5. -/
theorem claim_C5_witness :
    (1234567890 : Int) ≠ 0
    ∧ calculateDeadline (some 1234567890) 1700000000000 = 1234567890 :=
  ⟨by decide, (claim_C5_amended 1234567890 1700000000000 (by decide)).1⟩

/-! ## Claim C8: the retry classifier -/

def errC8 : JsError := { code := some (.num 4001), responseStatus := some 503 }

/-- Counterexample to claim C8 as stated: an error with the user-declined
code 4001 that also carries an HTTP response status 503 IS retried, because
the response-status branch runs before the rejection-code branch.  The claim
required false for a user-declined error in every case. -/
theorem claim_C8_counterexample :
    errC8.code = some (.num 4001) ∧ shouldRetryError errC8 = true := by
  constructor
  · rfl
  · rfl

/-- Claim C8 as amended: shouldRetryError checks its clauses in order.
Transport codes ECONNRESET and ETIMEDOUT always retry.  Otherwise, an error
carrying a truthy (present and nonzero) response status retries exactly when
the status is at least 500 or equals 429, regardless of any rejection code.
A user-declined code (4001 or ACTION_REJECTED) is never retried only when no
truthy response status is present.  An unclassified error (no code, no truthy
status) defaults to retry. -/
theorem claim_C8_amended (e : JsError) (s : Int) :
    (e.code = some (.str "ECONNRESET") ∨ e.code = some (.str "ETIMEDOUT") →
      shouldRetryError e = true)
    ∧ (e.code ≠ some (.str "ECONNRESET") → e.code ≠ some (.str "ETIMEDOUT") →
        e.responseStatus = some s → s ≠ 0 →
        (shouldRetryError e = true ↔ 500 ≤ s ∨ s = 429))
    ∧ (e.code = some (.num 4001) ∨ e.code = some (.str "ACTION_REJECTED") →
        statusTruthy e.responseStatus = false → shouldRetryError e = false)
    ∧ (e.code = none → statusTruthy e.responseStatus = false →
        shouldRetryError e = true) := by
  refine ⟨?_, ?_, ?_, ?_⟩
  · rintro (h | h) <;> simp [shouldRetryError, h]
  · intro h1 h2 h3 h4
    simp [shouldRetryError, h1, h2, h3, statusTruthy, h4]
  · rintro (h | h) hs <;> simp [shouldRetryError, h, hs]
  · intro h hs
    simp [shouldRetryError, h, hs]

/-- Witness for the amended claim C8, one concrete error per clause. -/
theorem claim_C8_witness :
    shouldRetryError { code := some (.str "ECONNRESET"), responseStatus := none } = true
    ∧ shouldRetryError { code := some (.num 4001), responseStatus := none } = false
    ∧ (shouldRetryError { code := none, responseStatus := some 503 } = true
        ↔ 500 ≤ (503 : Int) ∨ (503 : Int) = 429)
    ∧ shouldRetryError { code := none, responseStatus := none } = true :=
  ⟨(claim_C8_amended { code := some (.str "ECONNRESET"), responseStatus := none } 0).1
      (Or.inl rfl),
    (claim_C8_amended { code := some (.num 4001), responseStatus := none } 0).2.2.1
      (Or.inl rfl) rfl,
    (claim_C8_amended { code := none, responseStatus := some 503 } 503).2.1
      (by decide) (by decide) rfl (by decide),
    (claim_C8_amended { code := none, responseStatus := none } 0).2.2.2 rfl rfl⟩

/-! ## Claim C7: characterization of isValidAddress -/

/-- The claim-side characterization: exactly 42 characters, the prefix 0x,
and hexadecimal digits (either case) for the remainder. -/
def specValidAddress (s : String) : Prop :=
  s.length = 42 ∧ ∃ t : String, s = "0x" ++ t ∧ t.data.all isHexDigit = true

/-- Claim C7: isValidAddress accepts a string exactly when it is 42
characters, the prefix 0x followed by 40 case-insensitive hexadecimal
digits; every other string is rejected. -/
theorem claim_C7 (s : String) : isValidAddress s = true ↔ specValidAddress s := by
  obtain ⟨cs⟩ := s
  constructor
  · intro h
    cases cs with
    | nil => simp [isValidAddress, validAddressChars] at h
    | cons c0 cs1 =>
      cases cs1 with
      | nil => simp [isValidAddress, validAddressChars] at h
      | cons c1 rest =>
        simp only [isValidAddress, validAddressChars, Bool.and_eq_true, beq_iff_eq] at h
        obtain ⟨⟨⟨h0, h1⟩, hlen⟩, hall⟩ := h
        subst h0
        subst h1
        refine ⟨?_, String.mk rest, rfl, hall⟩
        show ('0' :: 'x' :: rest).length = 42
        simp [hlen]
  · rintro ⟨hlen, t, ht, hall⟩
    obtain ⟨ts⟩ := t
    have hcs : cs = '0' :: 'x' :: ts := congrArg String.data ht
    subst hcs
    have hlen40 : ts.length = 40 := by
      have h42 : ('0' :: 'x' :: ts).length = 42 := hlen
      simpa using h42
    show validAddressChars ('0' :: 'x' :: ts) = true
    simp [validAddressChars, hlen40, hall]

/-! ## Claim C3: bigint conversion in the signing adapters -/

mutual
theorem prepareValue_no_bigint : (v : JsVal) → hasBigint (prepareValue v) = false
  | .bigint _ => by simp [prepareValue, hasBigint]
  | .obj fields => by simp [prepareValue, hasBigint, prepareFields_no_bigint fields]
  | .str _ => by simp [prepareValue, hasBigint]
  | .num _ => by simp [prepareValue, hasBigint]
  | .boolean _ => by simp [prepareValue, hasBigint]
  | .nul => by simp [prepareValue, hasBigint]
theorem prepareFields_no_bigint : (fs : JsFields) → fieldsHaveBigint (prepareFields fs) = false
  | .nil => by simp [prepareFields, fieldsHaveBigint]
  | .cons _ v rest => by
    simp [prepareFields, fieldsHaveBigint, prepareValue_no_bigint v,
      prepareFields_no_bigint rest]
end

def nestedBigintMessage : JsVal :=
  .obj (.cons "target" (.str "0x1234")
    (.cons "inner" (.obj (.cons "chainId" (.bigint 11155111) .nil)) .nil))

/-- Counterexample to claim C3 as stated: the ethers library-signer adapter
hands args.message to the underlying signTypedData call verbatim, so a bigint
nested in the message reaches the underlying call unconverted. -/
theorem claim_C3_counterexample :
    ethersSignedMessage nestedBigintMessage = nestedBigintMessage
    ∧ hasBigint (ethersSignedMessage nestedBigintMessage) = true := by
  refine ⟨rfl, ?_⟩
  simp [ethersSignedMessage, nestedBigintMessage, hasBigint, fieldsHaveBigint]

/-- Claim C3 as amended: the MetaMask extension-style adapter and the generic
EIP-1193 adapter convert every bigint in the message, nested objects
included, to a 0x hexadecimal string via prepareValue before the underlying
signing call; the ethers library-signer adapter hands the message through
unchanged, applying no conversion. -/
theorem claim_C3_amended :
    (∀ message : JsVal, hasBigint (metaMaskSignedMessage message) = false)
    ∧ (∀ message : JsVal, hasBigint (eip1193SignedMessage message) = false)
    ∧ (∀ message : JsVal, ethersSignedMessage message = message)
    ∧ (∀ i : Int, prepareValue (.bigint i) = .str ("0x" ++ bigintToString16 i)) :=
  ⟨fun m => prepareValue_no_bigint m, fun m => prepareValue_no_bigint m,
    fun _ => rfl, fun _ => rfl⟩

/-! ## Claim C9: the facilitator call encoding

Two published Keccak-256 test vectors validate the hash model, and a concrete
evaluation pins the full call-data bytes of one encoding. -/

set_option maxRecDepth 40000 in
theorem keccak256_empty_vector :
    bytesToHexStr (keccak256 []) =
      "c5d2460186f7233c927e7db2dcc703c0e500b653ca82273b7bfad8045d85a470" := by
  decide

set_option maxRecDepth 40000 in
theorem keccak256_abc_vector :
    bytesToHexStr (keccak256 (asciiBytes "abc")) =
      "4e03657aea45a94fc7d47ba826c8d667c0d1e6e33a64a036ec44f58fa12d6c45" := by
  decide

set_option maxRecDepth 40000 in
theorem facilitator_selector_eval :
    bytesToHexStr (selectorBytes FACILITATOR_SIGNATURE) = "f7f7b8ec" := by
  decide

/-- Claim C9: for every input, encodeFacilitatorCall returns the ABI encoding
of a call to facilitateTransferWithPermit(address token, address owner,
address to, uint256 value, uint256 deadline, uint8 v, bytes32 r, bytes32 s)
with the arguments supplied in exactly the order (tokenAddress, owner,
recipient, amount, deadline, v, r, s). -/
theorem claim_C9 (params : FacilitatorCallParams)
    (permitSignature : PermitSignatureParts) (deadline : Nat) :
    encodeFacilitatorCall params permitSignature deadline
      = specFacilitatorCallData params.tokenAddress params.owner params.recipient
          params.amount deadline permitSignature.v permitSignature.r permitSignature.s := by
  simp [encodeFacilitatorCall, specFacilitatorCallData, ethersEncodeFunctionData,
    selectorBytes]

set_option maxRecDepth 40000 in
/-- The encoding evaluated at one concrete input: selector f7f7b8ec of the
facilitator signature followed by the eight argument words in order. -/
theorem encodeFacilitatorCall_eval :
    encodeFacilitatorCall
      { tokenAddress := "0xaaaaaaaaaaaaaaaaaaaaaaaaaaaaaaaaaaaaaaaa",
        owner := addrUser,
        recipient := "0xbbbbbbbbbbbbbbbbbbbbbbbbbbbbbbbbbbbbbbbb",
        amount := 1000000 }
      { v := 27,
        r := "0x0101010101010101010101010101010101010101010101010101010101010101",
        s := "0x0202020202020202020202020202020202020202020202020202020202020202" }
      1700003600
    = "0xf7f7b8ec000000000000000000000000aaaaaaaaaaaaaaaaaaaaaaaaaaaaaaaaaaaaaaaa0000000000000000000000003333333333333333333333333333333333333333000000000000000000000000bbbbbbbbbbbbbbbbbbbbbbbbbbbbbbbbbbbbbbbb00000000000000000000000000000000000000000000000000000000000f4240000000000000000000000000000000000000000000000000000000006553ff10000000000000000000000000000000000000000000000000000000000000001b01010101010101010101010101010101010101010101010101010101010101010202020202020202020202020202020202020202020202020202020202020202" := by
  decide

/-! ## Claims C1, C2, C6: the executeRelay pipeline -/

def paramsW : RelayTransactionParams :=
  { target := addrTarget, data := "0x1234", userAddress := addrUser }

def okBodyW : RelayResponseBody :=
  { message := some "success", error := none, result := none,
    txHash := some "0xabc", blockNumber := none, gasUsed := none }

def okRespW : HttpOutcome := .response 200 "OK" "" okBodyW

def emptyBodyW : RelayResponseBody :=
  { message := none, error := none, result := none,
    txHash := none, blockNumber := none, gasUsed := none }

def badRespW : HttpOutcome := .response 400 "Bad Request" "bad request" emptyBodyW

/-- Whether a run rejected with RequestTimeoutError. -/
def isTimeoutRejection (run : RelayRun) : Bool :=
  match run.result with
  | .error (some (.requestTimeoutError _)) => true
  | _ => false

/-- Counterexample to claim C1 as stated: with the signing adapter resolving
at 31000 ms against a 30000 ms budget, executeRelay rejects with
SignatureError carrying the timeout message, not with RequestTimeoutError;
the RequestTimeoutError raised by the internal race is caught in
signRelayRequest and rewrapped. -/
theorem claim_C1_counterexample :
    (executeRelay stW paramsW none (.ok "0xsig") 31000 (fun _ => okRespW) 3 0 30000).result
        = .error (some (.signatureError "Request timed out"))
    ∧ isTimeoutRejection
        (executeRelay stW paramsW none (.ok "0xsig") 31000 (fun _ => okRespW) 3 0 30000)
        = false := by
  constructor
  · rfl
  · rfl

/-- Claim C1 as amended: whenever the signing backend does not resolve within
the configured timeout budget, executeRelay rejects with SignatureError whose
details carry the timeout message (the internal RequestTimeoutError is caught
and rewrapped by signRelayRequest); it neither hangs nor resolves, and no
submission attempt is made. -/
theorem claim_C1_amended (st : SDKState) (params : RelayTransactionParams)
    (chainId : Option Int) (signOutcome : Except SdkError String)
    (signTime : Nat) (responses : Nat → HttpOutcome) (maxAttempts : Int)
    (submitTime timeoutMs : Nat) (cfg : ChainConfig)
    (hcfg : getChainConfig st (chainId.getD st.currentChainId) = .ok cfg)
    (huser : params.userAddress ≠ "")
    (htarget : isValidAddress params.target = true)
    (huseraddr : isValidAddress params.userAddress = true)
    (hsponsor : isValidAddress cfg.sponsorAddress = true)
    (htime : timeoutMs < signTime) :
    executeRelay st params chainId signOutcome signTime responses maxAttempts
        submitTime timeoutMs
      = { attempts := 0, posted := none,
          result := .error (some (.signatureError "Request timed out")) } := by
  have hsign : signRelayRequest st params cfg.sponsorAddress
      (some (chainId.getD st.currentChainId)) signOutcome signTime timeoutMs
      = .error (.signatureError "Request timed out") := by
    simp [signRelayRequest, hcfg, withTimeout, htime, errorMessage,
      huser, htarget, huseraddr, hsponsor]
  unfold executeRelay
  simp only [hcfg, hsign]

/-- Witness for the amended claim C1. -/
theorem claim_C1_witness :
    (30000 : Nat) < 31000
    ∧ executeRelay stW paramsW none (.ok "0xsig2") 31000 (fun _ => okRespW) 3 0 30000
      = { attempts := 0, posted := none,
          result := .error (some (.signatureError "Request timed out")) } :=
  ⟨by decide,
    claim_C1_amended stW paramsW none (.ok "0xsig2") 31000 (fun _ => okRespW) 3 0 30000
      (defaultChainConfig cfgW) rfl (by decide) rfl rfl rfl (by decide)⟩

/-- Claim C2 evaluated at its failing input: the relay endpoint answers HTTP
400 on every attempt; the wrapped RelaySubmissionError exposes no response
status, so the classifier defaults to retry and the SDK makes all three
default attempts instead of the one the claim requires, before rejecting with
RelaySubmissionError. -/
theorem claim_C2_bug_eval :
    shouldRetryThrown (.relaySubmissionError "HTTP 400: Bad Request - bad request") = true
    ∧ (executeRelay stW paramsW none (.ok "0xsig") 0 (fun _ => badRespW) 3 0 30000).attempts
        = 3
    ∧ (executeRelay stW paramsW none (.ok "0xsig") 0 (fun _ => badRespW) 3 0 30000).result
        = .error (some (.relaySubmissionError "HTTP 400: Bad Request - bad request")) := by
  refine ⟨rfl, ?_, ?_⟩
  · rfl
  · rfl

theorem jsOrStr_self (a : Option String) : jsOrStr a a = a := by
  unfold jsOrStr
  split <;> rfl

theorem jsOrInt_self (a : Option Int) : jsOrInt a a = a := by
  unfold jsOrInt
  split <;> rfl

/-- Modelled from the spec: the success fields may appear at the top level of
the body or nested under a result field; each field is taken from the nested
object when truthy there, falling back to the top level, and the message is
the top-level message. -/
def specNormalize (body : RelayResponseBody) : RelayResult :=
  match body.result with
  | some nested =>
    { txHash := jsOrStr nested.txHash body.txHash
      blockNumber := jsOrInt nested.blockNumber body.blockNumber
      gasUsed := jsOrStr nested.gasUsed body.gasUsed
      message := body.message }
  | none =>
    { txHash := body.txHash
      blockNumber := body.blockNumber
      gasUsed := body.gasUsed
      message := body.message }

theorem relaySubmitOnce_success (status : Nat) (statusText errorText : String)
    (body : RelayResponseBody) (hok : 200 ≤ status ∧ status < 300)
    (hmsg : body.message = some "success") :
    relaySubmitOnce (.response status statusText errorText body)
      = .ok (specNormalize body) := by
  simp only [relaySubmitOnce]
  rw [if_neg (not_not_intro hok), if_neg (fun hne => hne hmsg)]
  cases hres : body.result with
  | some nested => simp [specNormalize, hres]
  | none => simp [specNormalize, hres, jsOrStr_self, jsOrInt_self]

theorem submitRelayRequest_first_success (st : SDKState)
    (params : RelayTransactionParams) (signature sponsorAddress : String)
    (chainId : Option Int) (responses : Nat → HttpOutcome) (maxAttempts : Int)
    (submitTime timeoutMs : Nat) (cfg : ChainConfig)
    (status : Nat) (statusText errorText : String) (body : RelayResponseBody)
    (hcfg : getChainConfig st (chainId.getD st.currentChainId) = .ok cfg)
    (hresp : responses 1 = .response status statusText errorText body)
    (hok : 200 ≤ status ∧ status < 300)
    (hmsg : body.message = some "success")
    (hmax : 1 ≤ maxAttempts)
    (htime : submitTime ≤ timeoutMs) :
    submitRelayRequest st params signature sponsorAddress chainId responses
        maxAttempts submitTime timeoutMs
      = { attempts := 1,
          posted := some (requestPayload (chainId.getD st.currentChainId) params
            signature sponsorAddress),
          result := .ok (specNormalize body) } := by
  obtain ⟨k, hk⟩ : ∃ k, maxAttempts.toNat = k + 1 :=
    ⟨maxAttempts.toNat - 1, by omega⟩
  have hfn : relaySubmitOnce (responses 1) = .ok (specNormalize body) := by
    rw [hresp]
    exact relaySubmitOnce_success _ _ _ _ hok hmsg
  unfold submitRelayRequest
  simp only [hcfg]
  simp [retryWithBackoff, hk, retryGo, hfn, withTimeoutSubmit, Nat.not_lt.mpr htime]

/-- Claim C6: the relay submission posts a payload of exactly the six fields
chainId, contractAddress, userAddress, data, userSignature and sponsor, with
sponsor equal to the resolved chain configuration sponsor address; and a
success response with message success is normalized into the RelayResult
shape whether its fields sit at the top level or nested under result. -/
theorem claim_C6 (st : SDKState) (params : RelayTransactionParams)
    (chainId : Option Int) (sig : String) (signTime : Nat)
    (responses : Nat → HttpOutcome) (maxAttempts : Int)
    (submitTime timeoutMs : Nat) (cfg : ChainConfig)
    (status : Nat) (statusText errorText : String) (body : RelayResponseBody)
    (hcfg : getChainConfig st (chainId.getD st.currentChainId) = .ok cfg)
    (huser : params.userAddress ≠ "")
    (htarget : isValidAddress params.target = true)
    (huseraddr : isValidAddress params.userAddress = true)
    (hsponsor : isValidAddress cfg.sponsorAddress = true)
    (hsigntime : signTime ≤ timeoutMs)
    (hresp : responses 1 = .response status statusText errorText body)
    (hok : 200 ≤ status ∧ status < 300)
    (hmsg : body.message = some "success")
    (hmax : 1 ≤ maxAttempts)
    (hsubtime : submitTime ≤ timeoutMs) :
    executeRelay st params chainId (.ok sig) signTime responses maxAttempts
        submitTime timeoutMs
      = { attempts := 1,
          posted := some (requestPayload (chainId.getD st.currentChainId) params
            sig cfg.sponsorAddress),
          result := .ok (specNormalize body) }
    ∧ (requestPayload (chainId.getD st.currentChainId) params sig
        cfg.sponsorAddress).sponsor = cfg.sponsorAddress
    ∧ (payloadPairs (requestPayload (chainId.getD st.currentChainId) params sig
        cfg.sponsorAddress)).map Prod.fst
      = ["chainId", "contractAddress", "userAddress", "data", "userSignature", "sponsor"] := by
  refine ⟨?_, rfl, rfl⟩
  have hsign : signRelayRequest st params cfg.sponsorAddress
      (some (chainId.getD st.currentChainId)) (.ok sig) signTime timeoutMs
      = .ok sig := by
    simp [signRelayRequest, hcfg, withTimeout, Nat.not_lt.mpr hsigntime,
      huser, htarget, huseraddr, hsponsor]
  have hsubmit := submitRelayRequest_first_success st params sig cfg.sponsorAddress
    (some (chainId.getD st.currentChainId)) responses maxAttempts submitTime timeoutMs
    cfg status statusText errorText body (by simpa using hcfg) hresp hok hmsg hmax hsubtime
  unfold executeRelay
  simp only [hcfg, hsign]
  simpa using hsubmit

def nestedW : RelayNested :=
  { txHash := some "0xdeadbeef", blockNumber := some 12, gasUsed := some "21000" }

def nestedBodyW : RelayResponseBody :=
  { message := some "success", error := none, result := some nestedW,
    txHash := some "0xtop", blockNumber := none, gasUsed := none }

def nestedRespW : HttpOutcome := .response 200 "OK" "" nestedBodyW

/-- Witness for claim C6, with the success fields nested under result. -/
theorem claim_C6_witness :
    executeRelay stW paramsW none (.ok "0xsig") 0 (fun _ => nestedRespW) 3 0 30000
      = { attempts := 1,
          posted := some (requestPayload 1 paramsW "0xsig"
            (defaultChainConfig cfgW).sponsorAddress),
          result := .ok (specNormalize nestedBodyW) }
    ∧ specNormalize nestedBodyW
      = { txHash := some "0xdeadbeef", blockNumber := some 12,
          gasUsed := some "21000", message := some "success" }
    ∧ (payloadPairs (requestPayload 1 paramsW "0xsig"
        (defaultChainConfig cfgW).sponsorAddress)).map Prod.fst
      = ["chainId", "contractAddress", "userAddress", "data", "userSignature", "sponsor"] :=
  ⟨(claim_C6 stW paramsW none "0xsig" 0 (fun _ => nestedRespW) 3 0 30000
      (defaultChainConfig cfgW) 200 "OK" "" nestedBodyW rfl (by decide) rfl rfl rfl
      (by decide) rfl (by decide) rfl (by decide) (by decide)).1,
    rfl, rfl⟩

end KalpSdk
